import Mathlib

/-!
Verification of the AppDiabetes variable-similarity matching engine.

This file gives a shallow embedding of `src/utils/text_utils.py` and
`src/services/similarity_engine.py`:

* Python `float` values are modelled as rationals (`ℚ`); `round(x, n)` is
  modelled as round-half-to-even at `n` decimal digits, `float` division as
  exact rational division.
* `difflib.SequenceMatcher(None, a, b).ratio()` is modelled by the
  Ratcliff–Obershelp matching-blocks algorithm it implements: find the
  longest common contiguous block (ties broken by earliest position in the
  first string, then in the second — difflib updates its best block only on a
  strictly longer chain while scanning positions in increasing order),
  recurse on the left and right remainders, and return
  `2 * total_matched / (len(a) + len(b))` (`1.0` when both are empty, as in
  `difflib._calculate_ratio`).  The junk heuristics are disabled for the
  engine's inputs and are not modelled.
* Python strings are `String`; `None`-able strings are `Option String`;
  dictionaries returned by the engine become structures where a key that is
  absent in one of the code paths becomes an `Option` field.
-/

namespace AppDiabetes

/-- Python `round` ties-to-even, applied to an exact rational: the nearest
integer, with halves going to the even neighbour. -/
def roundHalfEven (q : ℚ) : ℤ :=
  if q - (⌊q⌋ : ℚ) < 1/2 then ⌊q⌋
  else if 1/2 < q - (⌊q⌋ : ℚ) then ⌊q⌋ + 1
  else if ⌊q⌋ % 2 = 0 then ⌊q⌋ else ⌊q⌋ + 1

/-- Python `round(q, n)` on an exact rational value. -/
def pyRound (q : ℚ) (n : ℕ) : ℚ :=
  (roundHalfEven (q * (10 : ℚ) ^ n) : ℚ) / (10 : ℚ) ^ n

/-! ## Text normalization (`src/utils/text_utils.py`) -/

/-- Characters stripped by Python `str.strip()` (the whitespace the app can
encounter). -/
def esEspacio (c : Char) : Bool :=
  c = ' ' || c = '\t' || c = '\n' || c = '\r'

/-- Python `str.strip()`: drop leading and trailing whitespace. -/
def pyStrip (l : List Char) : List Char :=
  ((l.dropWhile esEspacio).reverse.dropWhile esEspacio).reverse

/-- Combining acute accent U+0301. -/
def marcaAguda : Char := Char.ofNat 0x301

/-- Combining diaeresis U+0308. -/
def marcaDiaeresis : Char := Char.ofNat 0x308

/-- Combining tilde U+0303. -/
def marcaTilde : Char := Char.ofNat 0x303

/-- Models `unicodedata.normalize("NFD", ·)` character-wise for the Latin
letters the application encounters (Spanish accented vowels, ü, ñ); any other
character decomposes to itself. -/
def nfd (c : Char) : List Char :=
  if c = 'á' then ['a', marcaAguda]
  else if c = 'é' then ['e', marcaAguda]
  else if c = 'í' then ['i', marcaAguda]
  else if c = 'ó' then ['o', marcaAguda]
  else if c = 'ú' then ['u', marcaAguda]
  else if c = 'ü' then ['u', marcaDiaeresis]
  else if c = 'ñ' then ['n', marcaTilde]
  else [c]

/-- `unicodedata.category(ch) == "Mn"`: the combining-mark block relevant
here (U+0300–U+036F). -/
def esMn (c : Char) : Bool :=
  0x300 ≤ c.toNat && c.toNat ≤ 0x36F

/-- Python `str.lower()` on one character, covering the accented capitals the
application encounters in addition to ASCII. -/
def pyToLower (c : Char) : Char :=
  if c = 'Á' then 'á'
  else if c = 'É' then 'é'
  else if c = 'Í' then 'í'
  else if c = 'Ó' then 'ó'
  else if c = 'Ú' then 'ú'
  else if c = 'Ü' then 'ü'
  else if c = 'Ñ' then 'ñ'
  else c.toLower

/-- Python `str.lower()`. -/
def pyLower (s : String) : String :=
  String.mk (s.data.map pyToLower)

/-- `[a-z0-9]`, the characters kept by the regex in `normalizar_texto`. -/
def esAlnumMin (c : Char) : Bool :=
  ('a' ≤ c && c ≤ 'z') || ('0' ≤ c && c ≤ '9')

/-- Collapse every run of spaces to a single space (the flag records whether
the previous kept character was a space). -/
def colapsarEspaciosDesde : Bool → List Char → List Char
  | _, [] => []
  | enEspacio, c :: resto =>
    if c = ' ' then
      if enEspacio then colapsarEspaciosDesde true resto
      else ' ' :: colapsarEspaciosDesde true resto
    else c :: colapsarEspaciosDesde false resto

/-- `re.sub(r"\s+", " ", ·)` on a text whose only whitespace is `' '`. -/
def colapsarEspacios (l : List Char) : List Char :=
  colapsarEspaciosDesde false l

/-- `normalizar_texto` from `src/utils/text_utils.py`: strip and lower-case,
decompose accents and drop combining marks, replace every character outside
`[a-z0-9]` by a space (`re.sub(r"[^a-z0-9]+", " ", ·)` — collapsing of the
resulting runs is subsumed by the following `\s+` collapse), then collapse
whitespace and strip. -/
def normalizar_texto (texto : String) : String :=
  let minusculas := (pyStrip texto.data).map pyToLower
  let sinAcentos := (minusculas.flatMap nfd).filter (fun c => !esMn c)
  let espaciado := sinAcentos.map (fun c => if esAlnumMin c then c else ' ')
  String.mk (pyStrip (colapsarEspacios espaciado))

/-- `construir_candidatos` from `src/utils/text_utils.py`: pair each column
with its normalized form, preserving order. -/
def construir_candidatos (columnas : List String) : List (String × String) :=
  columnas.map (fun columna => (columna, normalizar_texto columna))

/-! ## Similarity scorer (`calcular_similitud`, i.e. `SequenceMatcher.ratio`) -/

/-- Length of the longest common prefix of two character lists. -/
def lcpLen : List Char → List Char → ℕ
  | x :: xs, y :: ys => if x = y then lcpLen xs ys + 1 else 0
  | _, _ => 0

/-- All index pairs `(i, j)`, `i < n`, `j < m`, in lexicographic order —
the scan order of `SequenceMatcher.find_longest_match`. -/
def todosPares (n m : ℕ) : List (ℕ × ℕ) :=
  (List.range n).flatMap (fun i => (List.range m).map (fun j => (i, j)))

/-- One step of the best-block scan: a strictly longer common block displaces
the current best (so ties keep the earliest pair). -/
def pasoBloque (a b : List Char) (best : ℕ × ℕ × ℕ) (ij : ℕ × ℕ) : ℕ × ℕ × ℕ :=
  let k := lcpLen (a.drop ij.1) (b.drop ij.2)
  if best.2.2 < k then (ij.1, ij.2, k) else best

/-- `find_longest_match` over whole lists: the `(i, j, size)` of the longest
common contiguous block, earliest `(i, j)` winning ties. -/
def mejorBloque (a b : List Char) : ℕ × ℕ × ℕ :=
  (todosPares a.length b.length).foldl (pasoBloque a b) (0, 0, 0)

/-- Total size of all matching blocks (`get_matching_blocks`): take the best
block and recurse on the pieces to its left and to its right.  The fuel
argument (instantiated with `a.length + b.length`, which the recursion never
exhausts) makes the recursion structural. -/
def totalCoincidencias : ℕ → List Char → List Char → ℕ
  | 0, _, _ => 0
  | fuel + 1, a, b =>
    let m := mejorBloque a b
    if m.2.2 = 0 then 0
    else
      m.2.2 + totalCoincidencias fuel (a.take m.1) (b.take m.2.1)
        + totalCoincidencias fuel (a.drop (m.1 + m.2.2)) (b.drop (m.2.1 + m.2.2))

/-- `SequenceMatcher.ratio()`: `2 * M / (len(a) + len(b))`, and `1.0` when
both inputs are empty (`difflib._calculate_ratio`). -/
def similitudListas (a b : List Char) : ℚ :=
  if a.length + b.length = 0 then 1
  else 2 * (totalCoincidencias (a.length + b.length) a b : ℚ) / ((a.length + b.length : ℕ) : ℚ)

/-- `calcular_similitud` from `src/utils/text_utils.py`. -/
def calcular_similitud (texto1 texto2 : String) : ℚ :=
  similitudListas texto1.data texto2.data

/-! ## The engine (`src/services/similarity_engine.py`) -/

/-- `Config.SIMILARITY_THRESHOLD` from `src/config/settings.py`. -/
def SIMILARITY_THRESHOLD : ℚ := 3/5

/-- The engine state: the one mutable configuration value. -/
structure SimilarityEngine where
  umbral_similitud : ℚ
  deriving DecidableEq

/-- Per-bucket breakdown returned by the diet policy (the `detalles` dict):
lists of `(columna, score, sinonimo)` triples. -/
structure DetallesDieta where
  frutas : List (String × ℚ × String)
  vegetales : List (String × ℚ × String)
  generales : List (String × ℚ × String)
  deriving DecidableEq

/-- The dict returned by one search.  `umbral_usado` is only present in the
standard policy's result, `notas`/`detalles` only in the diet policy's, hence
the `Option` fields. -/
structure MatchResult where
  encontrada : Bool
  columna : Option String
  confianza : ℚ
  sinonimo_match : Option String
  umbral_usado : Option ℚ
  notas : Option String
  detalles : Option DetallesDieta
  deriving DecidableEq

/-- The running best of `buscar_variable_simple`
(`mejor_columna`, `mejor_score`, `mejor_sinonimo`). -/
structure Mejor where
  columna : Option String
  score : ℚ
  sinonimo : Option String
  deriving DecidableEq

/-- Python truthiness on an optional string: `str(x) if x else None` maps
both `None` and `""` to `None`. -/
def strSiNoVacio : Option String → Option String
  | some s => if s = "" then none else some s
  | none => none

/-- The inner-loop update of `buscar_variable_simple`: strictly better scores
displace the best (first-seen wins ties). -/
def pasoMejor (normalizado : String) (original : String) (acc : Mejor)
    (sn : String × String) : Mejor :=
  let score := calcular_similitud normalizado sn.2
  if acc.score < score then ⟨some original, score, some sn.1⟩ else acc

/-- `SimilarityEngine.buscar_variable_simple`. -/
def buscar_variable_simple (engine : SimilarityEngine) (variable_key : String)
    (sinonimos columnas : List String) : MatchResult :=
  let candidatos := construir_candidatos columnas
  let sinonimos_norm := sinonimos.map normalizar_texto
  let mejor := candidatos.foldl
    (fun acc par => (sinonimos.zip sinonimos_norm).foldl (pasoMejor par.2 par.1) acc)
    ⟨none, 0, none⟩
  { encontrada := decide (engine.umbral_similitud ≤ mejor.score)
    columna := strSiNoVacio mejor.columna
    confianza := pyRound mejor.score 3
    sinonimo_match := strSiNoVacio mejor.sinonimo
    umbral_usado := some engine.umbral_similitud
    notas := none
    detalles := none }

/-- Does `s` contain `sub` as a contiguous substring (Python `sub in s`)? -/
def contieneLista (s sub : List Char) : Bool :=
  match s with
  | [] => sub.isPrefixOf ([] : List Char)
  | c :: resto => sub.isPrefixOf (c :: resto) || contieneLista resto sub

/-- Python `sub in s` on strings. -/
def contiene (s sub : String) : Bool :=
  contieneLista s.data sub.data

/-- `palabras_frutas` from `buscar_variable_dieta_especial`. -/
def palabras_frutas : List String := ["frut", "fruit"]

/-- `palabras_vegetales` from `buscar_variable_dieta_especial`. -/
def palabras_vegetales : List String := ["vegetal", "verdura", "vegetable"]

/-- `any(palabra in normalizado for palabra in palabras_frutas)`: the
fruit-keyword test on a normalized candidate text. -/
def esFrutaTxt (normalizado : String) : Bool :=
  palabras_frutas.any (fun palabra => contiene normalizado palabra)

/-- `any(palabra in normalizado for palabra in palabras_vegetales)`: the
vegetable-keyword test on a normalized candidate text. -/
def esVegetalTxt (normalizado : String) : Bool :=
  palabras_vegetales.any (fun palabra => contiene normalizado palabra)

/-- One inner-loop step of the diet policy: score the pair, and when the
threshold is met append the `(original, score, sinonimo)` triple to the fruit,
vegetable or general bucket — fruit keywords are tested first on the
candidate's normalized text, then vegetable keywords, else general. -/
def pasoDieta (umbral : ℚ) (original normalizado : String) (acc : DetallesDieta)
    (sinonimo : String) : DetallesDieta :=
  let sinonimo_norm := normalizar_texto sinonimo
  let score := calcular_similitud normalizado sinonimo_norm
  if umbral ≤ score then
    if esFrutaTxt normalizado then
      { acc with frutas := acc.frutas ++ [(original, score, sinonimo)] }
    else if esVegetalTxt normalizado then
      { acc with vegetales := acc.vegetales ++ [(original, score, sinonimo)] }
    else
      { acc with generales := acc.generales ++ [(original, score, sinonimo)] }
  else acc

/-- The classification loops of `buscar_variable_dieta_especial`: candidates
outer, synonyms inner, accumulating the three buckets. -/
def cubetasDieta (engine : SimilarityEngine) (sinonimos columnas : List String) :
    DetallesDieta :=
  (construir_candidatos columnas).foldl
    (fun acc par => sinonimos.foldl (pasoDieta engine.umbral_similitud par.1 par.2) acc)
    ⟨[], [], []⟩

/-- `todas_coincidencias.sort(key=lambda x: x[1], reverse=True)` followed by
`todas_coincidencias[0]`: the head of a stable descending sort is the first
element attaining the maximal score, which is what this computes. -/
def primeroMaximo : List (String × ℚ × String) → Option (String × ℚ × String)
  | [] => none
  | t :: resto => some (resto.foldl (fun best u => if best.2.1 < u.2.1 then u else best) t)

/-- The `notas` string assembled by the diet policy. -/
def notasDieta (c : DetallesDieta) : String :=
  String.intercalate "; "
    ((if c.frutas.length ≠ 0 then
        ["Frutas detectadas: " ++ toString c.frutas.length ++ " columna(s)"] else []) ++
     (if c.vegetales.length ≠ 0 then
        ["Vegetales detectados: " ++ toString c.vegetales.length ++ " columna(s)"] else []) ++
     (if c.generales.length ≠ 0 then
        ["Dieta general: " ++ toString c.generales.length ++ " columna(s)"] else []))

/-- `SimilarityEngine.buscar_variable_dieta_especial`. -/
def buscar_variable_dieta_especial (engine : SimilarityEngine)
    (sinonimos columnas : List String) : MatchResult :=
  let c := cubetasDieta engine sinonimos columnas
  let todas := c.frutas ++ c.vegetales ++ c.generales
  match primeroMaximo todas with
  | some mejor =>
    { encontrada := true
      columna := some mejor.1
      confianza := pyRound mejor.2.1 3
      sinonimo_match := some mejor.2.2
      umbral_usado := none
      notas := some (notasDieta c)
      detalles := some c }
  | none =>
    { encontrada := false
      columna := none
      confianza := 0
      sinonimo_match := none
      umbral_usado := none
      notas := some "No se encontraron coincidencias de dieta"
      detalles := some ⟨[], [], []⟩ }

/-- `SimilarityEngine.buscar_variable`: the diet policy exactly when
`variable_key.lower() == 'dieta'`, the standard policy otherwise. -/
def buscar_variable (engine : SimilarityEngine) (variable_key : String)
    (sinonimos columnas : List String) : MatchResult :=
  if pyLower variable_key = "dieta" then
    buscar_variable_dieta_especial engine sinonimos columnas
  else
    buscar_variable_simple engine variable_key sinonimos columnas

/-- One search result tagged with its variable key (the `'variable'` entry
added by `buscar_todas_variables`). -/
structure ResultadoEtiquetado where
  clave : String
  resultado : MatchResult
  deriving DecidableEq

/-- `SimilarityEngine.buscar_todas_variables` (the dict iterates in insertion
order, modelled as an association list). -/
def buscar_todas_variables (engine : SimilarityEngine)
    (variables_config : List (String × List String)) (columnas : List String) :
    List ResultadoEtiquetado :=
  variables_config.map (fun vc => ⟨vc.1, buscar_variable engine vc.1 vc.2 columnas⟩)

/-- The dict returned by `obtener_estadisticas_busqueda`. -/
structure Estadisticas where
  total_variables : ℕ
  variables_encontradas : ℕ
  variables_faltantes : List String
  cobertura_porcentaje : ℚ
  confianza_promedio : ℚ
  umbral_usado : ℚ
  deriving DecidableEq

/-- `SimilarityEngine.obtener_estadisticas_busqueda`. -/
def obtener_estadisticas_busqueda (engine : SimilarityEngine)
    (resultados : List ResultadoEtiquetado) : Estadisticas :=
  let total_variables := resultados.length
  let variables_encontradas := (resultados.filter (fun r => r.resultado.encontrada)).length
  let variables_faltantes :=
    (resultados.filter (fun r => !r.resultado.encontrada)).map (fun r => r.clave)
  let confianzas := (resultados.filter (fun r => r.resultado.encontrada)).map
    (fun r => r.resultado.confianza)
  let confianza_promedio :=
    if confianzas.length ≠ 0 then pyRound (confianzas.sum / (confianzas.length : ℚ)) 3 else 0
  let cobertura :=
    if 0 < total_variables then
      pyRound ((variables_encontradas : ℚ) / (total_variables : ℚ) * 100) 1
    else 0
  { total_variables := total_variables
    variables_encontradas := variables_encontradas
    variables_faltantes := variables_faltantes
    cobertura_porcentaje := cobertura
    confianza_promedio := confianza_promedio
    umbral_usado := engine.umbral_similitud }

/-- `SimilarityEngine.ajustar_umbral`: accept a new threshold only in
`[0, 1]`, keeping the previous one otherwise; the Bool reports success. -/
def ajustar_umbral (engine : SimilarityEngine) (nuevo_umbral : ℚ) :
    SimilarityEngine × Bool :=
  if 0 ≤ nuevo_umbral ∧ nuevo_umbral ≤ 1 then (⟨nuevo_umbral⟩, true)
  else (engine, false)

/-! ## Specification-side definitions (for stating the claims) -/

/-- All `(column, synonym, score)` triples a search examines, in iteration
order: candidates outer (column order), synonyms inner (list order), scored
on the normalized forms exactly as the engine scores them. -/
def paresEvaluados (sinonimos columnas : List String) : List (String × String × ℚ) :=
  (construir_candidatos columnas).flatMap
    (fun par => sinonimos.map
      (fun s => (par.1, s, calcular_similitud par.2 (normalizar_texto s))))

/-- The maximal score among the evaluated pairs (`0` for no pairs). -/
def puntajeMaximo (sinonimos columnas : List String) : ℚ :=
  (paresEvaluados sinonimos columnas).foldl (fun m p => max m p.2.2) 0

/-- The first-seen maximal `(column, synonym, score)` triple among the
evaluated pairs: later pairs displace it only with a strictly greater score. -/
def primerArgmax : List (String × String × ℚ) → Option (String × String × ℚ)
  | [] => none
  | p :: resto => some (resto.foldl (fun best q => if best.2.2 < q.2.2 then q else best) p)

/-- The update of `buscar_variable_simple`, reshaped to act on one evaluated
`(column, synonym, score)` triple. -/
def pasoPar (acc : Mejor) (p : String × String × ℚ) : Mejor :=
  if acc.score < p.2.2 then ⟨some p.1, p.2.2, some p.2.1⟩ else acc

/-- The running best of the standard policy as a single fold over the
evaluated pairs. -/
def mejorBusqueda (sinonimos columnas : List String) : Mejor :=
  (paresEvaluados sinonimos columnas).foldl pasoPar ⟨none, 0, none⟩

/-- The `((original, normalized), synonym)` pairs the diet policy iterates
over, in iteration order. -/
def paresDieta (sinonimos columnas : List String) : List ((String × String) × String) :=
  (construir_candidatos columnas).flatMap
    (fun par => sinonimos.map (fun s => (par, s)))

/-- The score the policies compute for one iterated
`((original, normalized), synonym)` pair. -/
def puntajeDieta (ps : (String × String) × String) : ℚ :=
  calcular_similitud ps.1.2 (normalizar_texto ps.2)

/-- Number of `(candidate, synonym)` pairs whose score meets the threshold
(the accepted pairs of the diet policy). -/
def paresAceptados (umbral : ℚ) (sinonimos columnas : List String) : ℕ :=
  (paresDieta sinonimos columnas).countP (fun ps => decide (umbral ≤ puntajeDieta ps))

/-- Spec-side contents of one diet bucket: the accepted
`(column, score, synonym)` triples whose normalized candidate text satisfies
`filtro`, in iteration order. -/
def triplesClasificados (umbral : ℚ) (sinonimos columnas : List String)
    (filtro : String → Bool) : List (String × ℚ × String) :=
  (construir_candidatos columnas).flatMap (fun par =>
    sinonimos.filterMap (fun s =>
      let score := calcular_similitud par.2 (normalizar_texto s)
      if umbral ≤ score ∧ filtro par.2 = true then some (par.1, score, s) else none))

/-- A found result used in the concrete coverage example (claim C8). -/
def ejemploEncontrado : MatchResult :=
  ⟨true, some "GLU", 9/10, some "glucosa", some (3/5), none, none⟩

/-- A missing result used in the concrete coverage example (claim C8). -/
def ejemploFaltante : MatchResult :=
  ⟨false, none, 0, none, some (3/5), none, none⟩

/-- Eight tagged results, five of them found: the spec's coverage example. -/
def ejemploOcho : List ResultadoEtiquetado :=
  [⟨"glucosa", ejemploEncontrado⟩, ⟨"bmi", ejemploEncontrado⟩,
    ⟨"edad", ejemploEncontrado⟩, ⟨"hba1c", ejemploEncontrado⟩,
    ⟨"dieta", ejemploEncontrado⟩, ⟨"obesidad", ejemploFaltante⟩,
    ⟨"polidipsia", ejemploFaltante⟩, ⟨"embarazo", ejemploFaltante⟩]

/-! ## Generic fold and list lemmas -/

theorem foldl_flatMap {α β γ : Type} (f : β → γ → β) (g : α → List γ) (l : List α) :
    ∀ init : β,
      (l.flatMap g).foldl f init = l.foldl (fun acc x => (g x).foldl f acc) init := by
  induction l with
  | nil => intro init; rfl
  | cons x t ih =>
    intro init
    simp only [List.flatMap_cons, List.foldl_append, List.foldl_cons]
    exact ih _

theorem zip_map_self {α β : Type} (f : α → β) (l : List α) :
    l.zip (l.map f) = l.map (fun s => (s, f s)) := by
  induction l with
  | nil => rfl
  | cons x t ih => simp [ih]

theorem foldl_fixed {α β : Type} (f : β → α → β) (st : β) :
    ∀ l : List α, (∀ p ∈ l, f st p = st) → l.foldl f st = st := by
  intro l
  induction l with
  | nil => intro _; rfl
  | cons x t ih =>
    intro h
    rw [List.foldl_cons, h x (by simp)]
    exact ih (fun p hp => h p (by simp [hp]))

theorem countP_flatMap {α γ : Type} (p : γ → Bool) (g : α → List γ) (l : List α) :
    (l.flatMap g).countP p = (l.map (fun x => (g x).countP p)).sum := by
  induction l with
  | nil => rfl
  | cons x t ih => simp [List.countP_append, ih]

theorem filterMap_flatMap {α γ δ : Type} (h : γ → Option δ) (g : α → List γ) (l : List α) :
    (l.flatMap g).filterMap h = l.flatMap (fun x => (g x).filterMap h) := by
  induction l with
  | nil => rfl
  | cons x t ih => simp [List.filterMap_append, ih]

theorem foldl_max_le (l : List ℚ) : ∀ (st m : ℚ), (∀ x ∈ l, x ≤ m) → st ≤ m →
    l.foldl max st ≤ m := by
  induction l with
  | nil => intro st m _ hst; exact hst
  | cons x t ih =>
    intro st m hall hst
    exact ih _ m (fun y hy => hall y (by simp [hy]))
      (max_le hst (hall x (by simp)))

theorem le_foldl_max_init : ∀ (l : List ℚ) (st : ℚ), st ≤ l.foldl max st := by
  intro l
  induction l with
  | nil => intro _; exact le_rfl
  | cons y u ih =>
    intro st
    rw [List.foldl_cons]
    exact le_trans (le_max_left st y) (ih (max st y))

theorem le_foldl_max_of_mem (l : List ℚ) : ∀ (st m : ℚ), m ∈ l → m ≤ l.foldl max st := by
  induction l with
  | nil => intro _ m hm; cases hm
  | cons x t ih =>
    intro st m hm
    rw [List.foldl_cons]
    rcases List.mem_cons.mp hm with h | h
    · subst h
      exact le_trans (le_max_right st m) (le_foldl_max_init t (max st m))
    · exact ih (max st x) m h

theorem foldl_max_eq_of_max (l : List ℚ) (st m : ℚ) (hm : m ∈ l)
    (hall : ∀ x ∈ l, x ≤ m) (hst : st ≤ m) : l.foldl max st = m :=
  le_antisymm (foldl_max_le l st m hall hst) (le_foldl_max_of_mem l st m hm)

/-! ## Rounding lemmas -/

theorem roundHalfEven_intCast (z : ℤ) : roundHalfEven (z : ℚ) = z := by
  unfold roundHalfEven
  norm_num

theorem floor_le_roundHalfEven (q : ℚ) : ⌊q⌋ ≤ roundHalfEven q := by
  unfold roundHalfEven
  split_ifs <;> omega

theorem roundHalfEven_le_floor_add_one (q : ℚ) : roundHalfEven q ≤ ⌊q⌋ + 1 := by
  unfold roundHalfEven
  split_ifs <;> omega

theorem roundHalfEven_mono {q r : ℚ} (h : q ≤ r) :
    roundHalfEven q ≤ roundHalfEven r := by
  rcases lt_or_le ⌊q⌋ ⌊r⌋ with hf | hf
  · calc roundHalfEven q ≤ ⌊q⌋ + 1 := roundHalfEven_le_floor_add_one q
      _ ≤ ⌊r⌋ := by omega
      _ ≤ roundHalfEven r := floor_le_roundHalfEven r
  · have hf2 : ⌊r⌋ ≤ ⌊q⌋ := hf
    have hf3 : ⌊q⌋ = ⌊r⌋ := le_antisymm (Int.floor_le_floor h) hf2
    unfold roundHalfEven
    rw [hf3]
    have hqr : q - (⌊r⌋ : ℚ) ≤ r - (⌊r⌋ : ℚ) := by linarith
    split_ifs <;> first | omega | linarith

theorem roundHalfEven_nonneg {q : ℚ} (h : 0 ≤ q) : 0 ≤ roundHalfEven q := by
  have h1 : (0 : ℤ) ≤ ⌊q⌋ := Int.floor_nonneg.mpr h
  have h2 := floor_le_roundHalfEven q
  omega

theorem pyRound_mono (n : ℕ) {q r : ℚ} (h : q ≤ r) : pyRound q n ≤ pyRound r n := by
  unfold pyRound
  have hp : (0 : ℚ) < (10 : ℚ) ^ n := by positivity
  have h1 : q * (10 : ℚ) ^ n ≤ r * (10 : ℚ) ^ n :=
    mul_le_mul_of_nonneg_right h (le_of_lt hp)
  have h2 : (roundHalfEven (q * (10 : ℚ) ^ n) : ℚ) ≤ (roundHalfEven (r * (10 : ℚ) ^ n) : ℚ) := by
    exact_mod_cast roundHalfEven_mono h1
  gcongr

theorem pyRound_zero (n : ℕ) : pyRound 0 n = 0 := by
  unfold pyRound
  rw [zero_mul]
  have : roundHalfEven ((0 : ℤ) : ℚ) = 0 := roundHalfEven_intCast 0
  simp only [Int.cast_zero] at this
  rw [this]
  simp

theorem pyRound_nonneg (n : ℕ) {q : ℚ} (h : 0 ≤ q) : 0 ≤ pyRound q n := by
  unfold pyRound
  have hp : (0 : ℚ) < (10 : ℚ) ^ n := by positivity
  have h1 : 0 ≤ roundHalfEven (q * (10 : ℚ) ^ n) :=
    roundHalfEven_nonneg (by positivity)
  positivity

theorem pyRound_milesimas (z : ℤ) : pyRound ((z : ℚ) / 1000) 3 = (z : ℚ) / 1000 := by
  unfold pyRound
  have h1 : ((z : ℚ) / 1000) * (10 : ℚ) ^ (3 : ℕ) = (z : ℚ) := by
    norm_num
  rw [h1, roundHalfEven_intCast]
  norm_num

/-! ## Similarity scorer lemmas -/

theorem lcpLen_le_left : ∀ a b : List Char, lcpLen a b ≤ a.length := by
  intro a
  induction a with
  | nil => intro b; cases b <;> simp [lcpLen]
  | cons x xs ih =>
    intro b
    cases b with
    | nil => simp [lcpLen]
    | cons y ys =>
      unfold lcpLen
      split_ifs
      · simpa using Nat.succ_le_succ (ih ys)
      · simp

theorem lcpLen_le_right : ∀ a b : List Char, lcpLen a b ≤ b.length := by
  intro a
  induction a with
  | nil => intro b; cases b <;> simp [lcpLen]
  | cons x xs ih =>
    intro b
    cases b with
    | nil => simp [lcpLen]
    | cons y ys =>
      unfold lcpLen
      split_ifs
      · simpa using Nat.succ_le_succ (ih ys)
      · simp

theorem lcpLen_self : ∀ a : List Char, lcpLen a a = a.length := by
  intro a
  induction a with
  | nil => rfl
  | cons x xs ih => simp [lcpLen, ih]

theorem exists_mem_of_lcpLen_pos :
    ∀ a b : List Char, 0 < lcpLen a b → ∃ c, c ∈ a ∧ c ∈ b := by
  intro a b
  cases a with
  | nil => simp [lcpLen]
  | cons x xs =>
    cases b with
    | nil => simp [lcpLen]
    | cons y ys =>
      unfold lcpLen
      split_ifs with h
      · intro _; exact ⟨x, by simp, by simp [h]⟩
      · intro hpos; cases hpos

theorem foldl_pasoBloque_inv (a b : List Char) :
    ∀ (l : List (ℕ × ℕ)) (st : ℕ × ℕ × ℕ),
      st.2.2 ≤ a.length - st.1 → st.2.2 ≤ b.length - st.2.1 →
      (l.foldl (pasoBloque a b) st).2.2 ≤ a.length - (l.foldl (pasoBloque a b) st).1 ∧
        (l.foldl (pasoBloque a b) st).2.2 ≤ b.length - (l.foldl (pasoBloque a b) st).2.1 := by
  intro l
  induction l with
  | nil => intro st h1 h2; exact ⟨h1, h2⟩
  | cons p t ih =>
    intro st h1 h2
    rw [List.foldl_cons]
    by_cases hlt : st.2.2 < lcpLen (a.drop p.1) (b.drop p.2)
    · have hstep : pasoBloque a b st p =
          (p.1, p.2, lcpLen (a.drop p.1) (b.drop p.2)) := by
        unfold pasoBloque
        rw [if_pos hlt]
      rw [hstep]
      refine ih _ ?_ ?_
      · simpa using (lcpLen_le_left (a.drop p.1) (b.drop p.2)).trans
          (by simp [List.length_drop])
      · simpa using (lcpLen_le_right (a.drop p.1) (b.drop p.2)).trans
          (by simp [List.length_drop])
    · have hstep : pasoBloque a b st p = st := by
        unfold pasoBloque
        rw [if_neg hlt]
      rw [hstep]
      exact ih st h1 h2

theorem mejorBloque_inv (a b : List Char) :
    (mejorBloque a b).2.2 ≤ a.length - (mejorBloque a b).1 ∧
      (mejorBloque a b).2.2 ≤ b.length - (mejorBloque a b).2.1 := by
  unfold mejorBloque
  exact foldl_pasoBloque_inv a b _ (0, 0, 0) (by simp) (by simp)

theorem totalCoincidencias_le :
    ∀ (fuel : ℕ) (a b : List Char),
      totalCoincidencias fuel a b ≤ a.length ∧ totalCoincidencias fuel a b ≤ b.length := by
  intro fuel
  induction fuel with
  | zero => intro a b; simp [totalCoincidencias]
  | succ n ih =>
    intro a b
    unfold totalCoincidencias
    by_cases h0 : (mejorBloque a b).2.2 = 0
    · simp [h0]
    · simp only [h0, if_false]
      obtain ⟨h1, h2⟩ := mejorBloque_inv a b
      obtain ⟨ta, _⟩ := ih (a.take (mejorBloque a b).1) (b.take (mejorBloque a b).2.1)
      obtain ⟨_, tb⟩ := ih (a.take (mejorBloque a b).1) (b.take (mejorBloque a b).2.1)
      obtain ⟨da, db⟩ := ih (a.drop ((mejorBloque a b).1 + (mejorBloque a b).2.2))
        (b.drop ((mejorBloque a b).2.1 + (mejorBloque a b).2.2))
      have hta : totalCoincidencias n (a.take (mejorBloque a b).1)
          (b.take (mejorBloque a b).2.1) ≤ (mejorBloque a b).1 :=
        ta.trans (by simp [List.length_take])
      have htb : totalCoincidencias n (a.take (mejorBloque a b).1)
          (b.take (mejorBloque a b).2.1) ≤ (mejorBloque a b).2.1 :=
        tb.trans (by simp [List.length_take])
      have hda : totalCoincidencias n (a.drop ((mejorBloque a b).1 + (mejorBloque a b).2.2))
          (b.drop ((mejorBloque a b).2.1 + (mejorBloque a b).2.2)) ≤
          a.length - ((mejorBloque a b).1 + (mejorBloque a b).2.2) :=
        da.trans (by simp [List.length_drop])
      have hdb : totalCoincidencias n (a.drop ((mejorBloque a b).1 + (mejorBloque a b).2.2))
          (b.drop ((mejorBloque a b).2.1 + (mejorBloque a b).2.2)) ≤
          b.length - ((mejorBloque a b).2.1 + (mejorBloque a b).2.2) :=
        db.trans (by simp [List.length_drop])
      omega

theorem similitudListas_nonneg (a b : List Char) : 0 ≤ similitudListas a b := by
  unfold similitudListas
  split_ifs
  · norm_num
  · positivity

theorem similitudListas_le_one (a b : List Char) : similitudListas a b ≤ 1 := by
  unfold similitudListas
  split_ifs with h
  · exact le_refl 1
  · obtain ⟨h1, h2⟩ := totalCoincidencias_le (a.length + b.length) a b
    rw [div_le_one (by positivity)]
    have h3 : 2 * totalCoincidencias (a.length + b.length) a b ≤ a.length + b.length := by
      omega
    exact_mod_cast h3

theorem todosPares_cons (n m : ℕ) (hn : n ≠ 0) (hm : m ≠ 0) :
    ∃ rest, todosPares n m = (0, 0) :: rest := by
  obtain ⟨np, rfl⟩ := Nat.exists_eq_succ_of_ne_zero hn
  obtain ⟨mp, rfl⟩ := Nat.exists_eq_succ_of_ne_zero hm
  unfold todosPares
  rw [List.range_succ_eq_map, List.range_succ_eq_map]
  simp only [List.flatMap_cons, List.map_cons, List.cons_append]
  exact ⟨_, rfl⟩

theorem mejorBloque_self (a : List Char) (ha : a ≠ []) :
    mejorBloque a a = (0, 0, a.length) := by
  have hn : a.length ≠ 0 := by
    simpa [List.length_eq_zero] using ha
  obtain ⟨rest, hrest⟩ := todosPares_cons a.length a.length hn hn
  unfold mejorBloque
  rw [hrest, List.foldl_cons]
  have h1 : pasoBloque a a (0, 0, 0) (0, 0) = (0, 0, a.length) := by
    unfold pasoBloque
    simp [lcpLen_self, Nat.pos_of_ne_zero hn]
  rw [h1]
  apply foldl_fixed
  intro p _
  unfold pasoBloque
  have hk : lcpLen (a.drop p.1) (a.drop p.2) ≤ a.length :=
    (lcpLen_le_left _ _).trans (by simp [List.length_drop])
  rw [if_neg (by simpa using Nat.not_lt.mpr hk)]

theorem totalCoincidencias_nil_nil (fuel : ℕ) : totalCoincidencias fuel [] [] = 0 := by
  cases fuel with
  | zero => rfl
  | succ n =>
    unfold totalCoincidencias
    rfl

theorem totalCoincidencias_self (a : List Char) (ha : a ≠ []) :
    totalCoincidencias (a.length + a.length) a a = a.length := by
  obtain ⟨f, hf⟩ : ∃ f, a.length + a.length = f + 1 := by
    have : a.length ≠ 0 := by simpa [List.length_eq_zero] using ha
    exact ⟨a.length + a.length - 1, by omega⟩
  rw [hf]
  unfold totalCoincidencias
  rw [mejorBloque_self a ha]
  have hn : a.length ≠ 0 := by simpa [List.length_eq_zero] using ha
  simp only [hn, if_false]
  simp [Nat.zero_add, List.drop_length, totalCoincidencias_nil_nil]

theorem similitudListas_self (a : List Char) (ha : a ≠ []) : similitudListas a a = 1 := by
  have hn : a.length ≠ 0 := by simpa [List.length_eq_zero] using ha
  unfold similitudListas
  rw [if_neg (by omega)]
  rw [totalCoincidencias_self a ha]
  rw [div_eq_one_iff_eq (by positivity)]
  push_cast
  ring

theorem mejorBloque_disjoint (a b : List Char) (h : ∀ c ∈ a, c ∉ b) :
    (mejorBloque a b).2.2 = 0 := by
  have hk : ∀ i j : ℕ, lcpLen (a.drop i) (b.drop j) = 0 := by
    intro i j
    by_contra hne
    obtain ⟨c, hca, hcb⟩ :=
      exists_mem_of_lcpLen_pos _ _ (Nat.pos_of_ne_zero hne)
    exact h c (List.drop_subset _ _ hca) (List.drop_subset _ _ hcb)
  have hfix : (todosPares a.length b.length).foldl (pasoBloque a b) (0, 0, 0) = (0, 0, 0) := by
    apply foldl_fixed
    intro p _
    unfold pasoBloque
    rw [hk p.1 p.2]
    simp
  unfold mejorBloque
  rw [hfix]

theorem totalCoincidencias_disjoint (fuel : ℕ) (a b : List Char)
    (h : ∀ c ∈ a, c ∉ b) : totalCoincidencias fuel a b = 0 := by
  cases fuel with
  | zero => rfl
  | succ n =>
    unfold totalCoincidencias
    simp only [mejorBloque_disjoint a b h, if_pos]

theorem similitudListas_symm_disjoint (a b : List Char) (h : ∀ c ∈ a, c ∉ b) :
    similitudListas a b = similitudListas b a := by
  have hba : ∀ c ∈ b, c ∉ a := fun c hcb hca => h c hca hcb
  unfold similitudListas
  rw [totalCoincidencias_disjoint _ a b h, totalCoincidencias_disjoint _ b a hba]
  by_cases h0 : a.length + b.length = 0
  · rw [if_pos h0, if_pos (by omega)]
  · rw [if_neg h0, if_neg (by omega)]
    simp

/-! ## Standard-policy lemmas -/

theorem calcular_similitud_nonneg (t1 t2 : String) : 0 ≤ calcular_similitud t1 t2 :=
  similitudListas_nonneg _ _

theorem calcular_similitud_le_one (t1 t2 : String) : calcular_similitud t1 t2 ≤ 1 :=
  similitudListas_le_one _ _

set_option maxHeartbeats 1000000 in
theorem mejorBusqueda_eq_nested (sinonimos columnas : List String) :
    (construir_candidatos columnas).foldl
      (fun acc par =>
        (sinonimos.zip (sinonimos.map normalizar_texto)).foldl (pasoMejor par.2 par.1) acc)
      ⟨none, 0, none⟩ = mejorBusqueda sinonimos columnas := by
  have hfun : ∀ (par : String × String) (acc : Mejor),
      (sinonimos.zip (sinonimos.map normalizar_texto)).foldl (pasoMejor par.2 par.1) acc =
        (sinonimos.map
          (fun s => (par.1, s, calcular_similitud par.2 (normalizar_texto s)))).foldl
          pasoPar acc := by
    intro par acc
    rw [zip_map_self, List.foldl_map, List.foldl_map]
    rfl
  rw [mejorBusqueda, paresEvaluados, foldl_flatMap]
  simp only [hfun]

theorem buscar_variable_simple_eq (e : SimilarityEngine) (key : String)
    (sinonimos columnas : List String) :
    buscar_variable_simple e key sinonimos columnas =
      { encontrada := decide (e.umbral_similitud ≤ (mejorBusqueda sinonimos columnas).score)
        columna := strSiNoVacio (mejorBusqueda sinonimos columnas).columna
        confianza := pyRound (mejorBusqueda sinonimos columnas).score 3
        sinonimo_match := strSiNoVacio (mejorBusqueda sinonimos columnas).sinonimo
        umbral_usado := some e.umbral_similitud
        notas := none
        detalles := none } := by
  unfold buscar_variable_simple
  dsimp only
  rw [mejorBusqueda_eq_nested]

theorem foldl_pasoPar_score (l : List (String × String × ℚ)) :
    ∀ st : Mejor, (l.foldl pasoPar st).score = (l.map (fun p => p.2.2)).foldl max st.score := by
  induction l with
  | nil => intro st; rfl
  | cons p t ih =>
    intro st
    rw [List.foldl_cons, List.map_cons, List.foldl_cons, ih]
    congr 1
    unfold pasoPar
    split_ifs with h
    · exact (max_eq_right (le_of_lt h)).symm
    · exact (max_eq_left (not_lt.mp h)).symm

theorem mejorBusqueda_score (sinonimos columnas : List String) :
    (mejorBusqueda sinonimos columnas).score = puntajeMaximo sinonimos columnas := by
  unfold mejorBusqueda puntajeMaximo
  rw [foldl_pasoPar_score, List.foldl_map]

theorem foldl_pasoPar_fixed (l : List (String × String × ℚ)) (st : Mejor)
    (h : ∀ p ∈ l, p.2.2 ≤ st.score) : l.foldl pasoPar st = st := by
  apply foldl_fixed
  intro p hp
  unfold pasoPar
  rw [if_neg (not_lt.mpr (h p hp))]

/-- The single strict-`>` scan returns the first-seen maximal triple: if the
pair list splits as `l1 ++ pm :: l2` with every pair in `l1` scoring strictly
below `pm` and every pair in `l2` scoring at most `pm`, and the running best
starts strictly below `pm`, the fold ends at `pm`. -/
theorem foldl_pasoPar_first_argmax (pm : String × String × ℚ) :
    ∀ (l1 l2 : List (String × String × ℚ)) (st : Mejor),
      (∀ q ∈ l1, q.2.2 < pm.2.2) →
      (∀ q ∈ l2, q.2.2 ≤ pm.2.2) →
      st.score < pm.2.2 →
      (l1 ++ pm :: l2).foldl pasoPar st = ⟨some pm.1, pm.2.2, some pm.2.1⟩ := by
  intro l1
  induction l1 with
  | nil =>
    intro l2 st _ h2 hst
    rw [List.nil_append, List.foldl_cons]
    have hp : pasoPar st pm = ⟨some pm.1, pm.2.2, some pm.2.1⟩ := by
      unfold pasoPar
      rw [if_pos hst]
    rw [hp]
    exact foldl_pasoPar_fixed l2 _ (fun q hq => h2 q hq)
  | cons q t ih =>
    intro l2 st h1 h2 hst
    rw [List.cons_append, List.foldl_cons]
    apply ih l2 _ (fun r hr => h1 r (List.mem_cons_of_mem _ hr)) h2
    unfold pasoPar
    split_ifs with hlt
    · exact h1 q (by simp)
    · exact hst

/-! ## Diet-policy lemmas -/

theorem cubetasDieta_eq_flat (e : SimilarityEngine) (sinonimos columnas : List String) :
    cubetasDieta e sinonimos columnas =
      (paresDieta sinonimos columnas).foldl
        (fun acc ps => pasoDieta e.umbral_similitud ps.1.1 ps.1.2 acc ps.2) ⟨[], [], []⟩ := by
  unfold cubetasDieta paresDieta
  rw [foldl_flatMap]
  congr 1
  funext acc par
  rw [List.foldl_map]

theorem pasoDieta_count (u : ℚ) (original normalizado : String) (acc : DetallesDieta)
    (sinonimo : String) :
    (pasoDieta u original normalizado acc sinonimo).frutas.length +
        (pasoDieta u original normalizado acc sinonimo).vegetales.length +
        (pasoDieta u original normalizado acc sinonimo).generales.length =
      acc.frutas.length + acc.vegetales.length + acc.generales.length +
        (if u ≤ calcular_similitud normalizado (normalizar_texto sinonimo) then 1 else 0) := by
  unfold pasoDieta
  dsimp only
  split_ifs <;> simp <;> omega

theorem foldl_pasoDieta_count (u : ℚ) :
    ∀ (l : List ((String × String) × String)) (acc : DetallesDieta),
      (l.foldl (fun acc ps => pasoDieta u ps.1.1 ps.1.2 acc ps.2) acc).frutas.length +
        (l.foldl (fun acc ps => pasoDieta u ps.1.1 ps.1.2 acc ps.2) acc).vegetales.length +
        (l.foldl (fun acc ps => pasoDieta u ps.1.1 ps.1.2 acc ps.2) acc).generales.length =
      acc.frutas.length + acc.vegetales.length + acc.generales.length +
        l.countP (fun ps => decide (u ≤ puntajeDieta ps)) := by
  intro l
  induction l with
  | nil => intro acc; simp
  | cons ps t ih =>
    intro acc
    rw [List.foldl_cons, List.countP_cons, ih, pasoDieta_count]
    unfold puntajeDieta
    simp only [decide_eq_true_eq]
    split_ifs with h <;> omega

theorem cubetasDieta_count (e : SimilarityEngine) (sinonimos columnas : List String) :
    (cubetasDieta e sinonimos columnas).frutas.length +
      (cubetasDieta e sinonimos columnas).vegetales.length +
      (cubetasDieta e sinonimos columnas).generales.length =
      paresAceptados e.umbral_similitud sinonimos columnas := by
  rw [cubetasDieta_eq_flat, foldl_pasoDieta_count]
  unfold paresAceptados
  dsimp only [List.length_nil]
  omega

theorem foldl_pasoDieta_filtros (u : ℚ) :
    ∀ (l : List ((String × String) × String)) (acc : DetallesDieta),
      l.foldl (fun acc ps => pasoDieta u ps.1.1 ps.1.2 acc ps.2) acc =
        ⟨acc.frutas ++ l.filterMap (fun ps =>
            if u ≤ puntajeDieta ps ∧ esFrutaTxt ps.1.2 = true
            then some (ps.1.1, puntajeDieta ps, ps.2) else none),
          acc.vegetales ++ l.filterMap (fun ps =>
            if u ≤ puntajeDieta ps ∧ (!esFrutaTxt ps.1.2 && esVegetalTxt ps.1.2) = true
            then some (ps.1.1, puntajeDieta ps, ps.2) else none),
          acc.generales ++ l.filterMap (fun ps =>
            if u ≤ puntajeDieta ps ∧ (!esFrutaTxt ps.1.2 && !esVegetalTxt ps.1.2) = true
            then some (ps.1.1, puntajeDieta ps, ps.2) else none)⟩ := by
  intro l
  induction l with
  | nil => intro acc; simp
  | cons ps t ih =>
    intro acc
    rw [List.foldl_cons, ih]
    unfold pasoDieta puntajeDieta
    dsimp only
    by_cases hu : u ≤ calcular_similitud ps.1.2 (normalizar_texto ps.2) <;>
      cases hF : esFrutaTxt ps.1.2 <;> cases hV : esVegetalTxt ps.1.2 <;>
      simp [hu, hF, hV, List.filterMap_cons]

set_option maxHeartbeats 1000000 in
theorem triplesClasificados_eq_filterMap (u : ℚ) (sinonimos columnas : List String)
    (filtro : String → Bool) :
    triplesClasificados u sinonimos columnas filtro =
      (paresDieta sinonimos columnas).filterMap (fun ps =>
        if u ≤ puntajeDieta ps ∧ filtro ps.1.2 = true
        then some (ps.1.1, puntajeDieta ps, ps.2) else none) := by
  unfold triplesClasificados paresDieta
  rw [filterMap_flatMap]
  congr 1
  funext par
  rw [List.filterMap_map]
  rfl

theorem cubetasDieta_filtros (e : SimilarityEngine) (sinonimos columnas : List String) :
    cubetasDieta e sinonimos columnas =
      ⟨triplesClasificados e.umbral_similitud sinonimos columnas esFrutaTxt,
        triplesClasificados e.umbral_similitud sinonimos columnas
          (fun nc => !esFrutaTxt nc && esVegetalTxt nc),
        triplesClasificados e.umbral_similitud sinonimos columnas
          (fun nc => !esFrutaTxt nc && !esVegetalTxt nc)⟩ := by
  rw [cubetasDieta_eq_flat, foldl_pasoDieta_filtros,
    triplesClasificados_eq_filterMap, triplesClasificados_eq_filterMap,
    triplesClasificados_eq_filterMap]
  simp

theorem primeroMaximo_eq_none (l : List (String × ℚ × String)) :
    primeroMaximo l = none ↔ l = [] := by
  cases l <;> simp [primeroMaximo]

theorem dieta_detalles (e : SimilarityEngine) (sinonimos columnas : List String) :
    (buscar_variable_dieta_especial e sinonimos columnas).detalles =
      some (cubetasDieta e sinonimos columnas) := by
  unfold buscar_variable_dieta_especial
  dsimp only
  rcases hc : cubetasDieta e sinonimos columnas with ⟨cf, cv, cg⟩
  rcases hL : cf ++ cv ++ cg with _ | ⟨x, xs⟩
  · rw [show primeroMaximo [] = none from rfl]
    have h3 : cf = [] ∧ cv = [] ∧ cg = [] := by
      rcases List.append_eq_nil.mp hL with ⟨h1, h2⟩
      exact ⟨(List.append_eq_nil.mp h1).1, (List.append_eq_nil.mp h1).2, h2⟩
    simp [h3.1, h3.2.1, h3.2.2]
  · rw [show primeroMaximo (x :: xs) =
      some (xs.foldl (fun best u => if best.2.1 < u.2.1 then u else best) x) from rfl]

theorem dieta_no_match (e : SimilarityEngine) (sinonimos columnas : List String)
    (h : paresAceptados e.umbral_similitud sinonimos columnas = 0) :
    buscar_variable_dieta_especial e sinonimos columnas =
      ⟨false, none, 0, none, none, some "No se encontraron coincidencias de dieta",
        some ⟨[], [], []⟩⟩ := by
  have hlen := cubetasDieta_count e sinonimos columnas
  rw [h] at hlen
  have hf : (cubetasDieta e sinonimos columnas).frutas = [] :=
    List.length_eq_zero.mp (by omega)
  have hv : (cubetasDieta e sinonimos columnas).vegetales = [] :=
    List.length_eq_zero.mp (by omega)
  have hg : (cubetasDieta e sinonimos columnas).generales = [] :=
    List.length_eq_zero.mp (by omega)
  unfold buscar_variable_dieta_especial
  dsimp only
  rw [hf, hv, hg]
  rfl

theorem dieta_encontrada_iff (e : SimilarityEngine) (sinonimos columnas : List String) :
    (buscar_variable_dieta_especial e sinonimos columnas).encontrada = true ↔
      0 < paresAceptados e.umbral_similitud sinonimos columnas := by
  have hlen := cubetasDieta_count e sinonimos columnas
  unfold buscar_variable_dieta_especial
  dsimp only
  rcases hL : (cubetasDieta e sinonimos columnas).frutas ++
      (cubetasDieta e sinonimos columnas).vegetales ++
      (cubetasDieta e sinonimos columnas).generales with _ | ⟨x, xs⟩
  · rw [show primeroMaximo [] = none from rfl]
    have hl0 := congrArg List.length hL
    simp only [List.length_append, List.length_nil] at hl0
    simp only [Bool.false_eq_true, false_iff]
    omega
  · rw [show primeroMaximo (x :: xs) =
      some (xs.foldl (fun best u => if best.2.1 < u.2.1 then u else best) x) from rfl]
    have hl0 := congrArg List.length hL
    simp only [List.length_append, List.length_cons] at hl0
    simp only [true_iff]
    omega

/-! ## Statistics and dispatch lemmas -/

theorem calcular_similitud_self (a : String) (ha : a ≠ "") :
    calcular_similitud a a = 1 := by
  apply similitudListas_self
  intro hdata
  apply ha
  cases a
  cases hdata
  rfl

theorem countP_implies_le {α : Type} (p q : α → Bool) :
    ∀ l : List α, (∀ a ∈ l, p a = true → q a = true) → l.countP p ≤ l.countP q := by
  intro l
  induction l with
  | nil => intro _; exact le_refl _
  | cons x t ih =>
    intro h
    rw [List.countP_cons, List.countP_cons]
    have ht := ih (fun a ha => h a (by simp [ha]))
    by_cases hx : p x = true
    · rw [hx, h x (by simp) hx]
      omega
    · have : (if p x = true then 1 else 0) = 0 := by simp [hx]
      rw [this]
      split_ifs <;> omega

theorem paresAceptados_mono (sinonimos columnas : List String) {T Tp : ℚ} (h : Tp ≤ T) :
    paresAceptados T sinonimos columnas ≤ paresAceptados Tp sinonimos columnas := by
  unfold paresAceptados
  apply countP_implies_le
  intro ps _ hp
  simp only [decide_eq_true_eq] at hp ⊢
  linarith

theorem estadisticas_formulas (e : SimilarityEngine) (resultados : List ResultadoEtiquetado) :
    obtener_estadisticas_busqueda e resultados =
      { total_variables := resultados.length
        variables_encontradas := resultados.countP (fun r => r.resultado.encontrada)
        variables_faltantes :=
          (resultados.filter (fun r => !r.resultado.encontrada)).map (fun r => r.clave)
        cobertura_porcentaje :=
          if resultados.length = 0 then 0
          else pyRound (((resultados.countP (fun r => r.resultado.encontrada) : ℕ) : ℚ) /
            ((resultados.length : ℕ) : ℚ) * 100) 1
        confianza_promedio :=
          if resultados.countP (fun r => r.resultado.encontrada) = 0 then 0
          else pyRound
            (((resultados.filter (fun r => r.resultado.encontrada)).map
                (fun r => r.resultado.confianza)).sum /
              ((resultados.countP (fun r => r.resultado.encontrada) : ℕ) : ℚ)) 3
        umbral_usado := e.umbral_similitud } := by
  unfold obtener_estadisticas_busqueda
  dsimp only
  have hl : ((resultados.filter (fun r => r.resultado.encontrada)).map
      (fun r => r.resultado.confianza)).length =
      resultados.countP (fun r => r.resultado.encontrada) := by
    rw [List.length_map, List.countP_eq_length_filter]
  simp only [Estadisticas.mk.injEq]
  refine ⟨trivial, ?_, trivial, ?_, ?_, trivial⟩
  · rw [List.countP_eq_length_filter]
  · by_cases h : resultados.length = 0
    · rw [if_neg (by omega : ¬ 0 < resultados.length), if_pos h]
    · rw [if_pos (Nat.pos_of_ne_zero h), if_neg h, List.countP_eq_length_filter]
  · rw [hl]
    by_cases h : resultados.countP (fun r => r.resultado.encontrada) = 0
    · rw [if_neg (by omega : ¬ resultados.countP (fun r => r.resultado.encontrada) ≠ 0),
        if_pos h]
    · rw [if_pos h, if_neg h]

/-! ## The claims

The core rational operations are shipped `@[irreducible]`; restore
definitional transparency here so that concrete instances can be checked by
`decide` (the kernel ignores reducibility attributes, so no proof content
depends on this). -/

set_option allowUnsafeReducibility true
attribute [semireducible] Rat.mul Rat.add Rat.sub Rat.neg Rat.inv
set_option maxRecDepth 1000000

/-- C1 (counterexample): the claimed invariant "confianza is 0.0 whenever
encontrada is false" fails for the standard policy, which reports the rounded
best score even on a miss (score 2/5 for column "xyz" against synonym "zq");
and with a threshold of 4/7 (more than 3 decimals) a found result's rounded
confidence can even drop below the recorded threshold. -/
theorem C1_contraejemplo :
    ((buscar_variable_simple ⟨3/5⟩ "x" ["zq"] ["xyz"]).encontrada = false ∧
      (buscar_variable_simple ⟨3/5⟩ "x" ["zq"] ["xyz"]).confianza ≠ 0) ∧
    ((buscar_variable_simple ⟨4/7⟩ "x" ["abzzz"] ["ab"]).encontrada = true ∧
      (buscar_variable_simple ⟨4/7⟩ "x" ["abzzz"] ["ab"]).confianza < 4/7) := by
  decide

/-- C1 (amended): for the standard policy, when encontrada is true and the
threshold has at most three decimal places, confianza (the rounded best
score) is at least the umbral_usado recorded in the result; when encontrada
is false, confianza equals the rounded best score over all pairs (which need
not be 0); for the diet policy, encontrada = false together with
confianza = 0 holds exactly when no (candidate, synonym) pair scored at or
above the threshold. -/
theorem C1_invariante_resultado :
    (∀ (e : SimilarityEngine) (key : String) (sinonimos columnas : List String) (z : ℤ),
      e.umbral_similitud = (z : ℚ) / 1000 →
      (buscar_variable_simple e key sinonimos columnas).encontrada = true →
      ∃ u, (buscar_variable_simple e key sinonimos columnas).umbral_usado = some u ∧
        u ≤ (buscar_variable_simple e key sinonimos columnas).confianza) ∧
    (∀ (e : SimilarityEngine) (key : String) (sinonimos columnas : List String),
      (buscar_variable_simple e key sinonimos columnas).encontrada = false →
      (buscar_variable_simple e key sinonimos columnas).confianza =
        pyRound (puntajeMaximo sinonimos columnas) 3) ∧
    (∀ (e : SimilarityEngine) (sinonimos columnas : List String),
      ((buscar_variable_dieta_especial e sinonimos columnas).encontrada = false ∧
        (buscar_variable_dieta_especial e sinonimos columnas).confianza = 0) ↔
        paresAceptados e.umbral_similitud sinonimos columnas = 0) := by
  refine ⟨?_, ?_, ?_⟩
  · intro e key sinonimos columnas z hz henc
    rw [buscar_variable_simple_eq] at henc ⊢
    dsimp only at henc ⊢
    refine ⟨e.umbral_similitud, rfl, ?_⟩
    have hle : e.umbral_similitud ≤ (mejorBusqueda sinonimos columnas).score :=
      of_decide_eq_true henc
    calc e.umbral_similitud = pyRound e.umbral_similitud 3 := by rw [hz, pyRound_milesimas]
      _ ≤ pyRound (mejorBusqueda sinonimos columnas).score 3 := pyRound_mono 3 hle
  · intro e key sinonimos columnas _
    rw [buscar_variable_simple_eq]
    dsimp only
    rw [mejorBusqueda_score]
  · intro e sinonimos columnas
    constructor
    · rintro ⟨henc, _⟩
      by_contra hne
      have hpos : 0 < paresAceptados e.umbral_similitud sinonimos columnas :=
        Nat.pos_of_ne_zero hne
      have htrue := (dieta_encontrada_iff e sinonimos columnas).mpr hpos
      rw [henc] at htrue
      cases htrue
    · intro h0
      rw [dieta_no_match e sinonimos columnas h0]
      exact ⟨rfl, rfl⟩

/-- C1 witness: the amended invariant at concrete inputs. -/
theorem C1_invariante_resultado_witness :
    (∃ u, (buscar_variable_simple ⟨3/5⟩ "glucosa" ["glucosa"] ["glucosa"]).umbral_usado = some u ∧
        u ≤ (buscar_variable_simple ⟨3/5⟩ "glucosa" ["glucosa"] ["glucosa"]).confianza) ∧
    ((buscar_variable_simple ⟨3/5⟩ "x" ["zq"] ["xyz"]).confianza =
      pyRound (puntajeMaximo ["zq"] ["xyz"]) 3) ∧
    (((buscar_variable_dieta_especial ⟨3/5⟩ ["dieta"] []).encontrada = false ∧
        (buscar_variable_dieta_especial ⟨3/5⟩ ["dieta"] []).confianza = 0) ↔
      paresAceptados (⟨3/5⟩ : SimilarityEngine).umbral_similitud ["dieta"] [] = 0) :=
  ⟨C1_invariante_resultado.1 ⟨3/5⟩ "glucosa" ["glucosa"] ["glucosa"] 600 (by decide) (by decide),
    C1_invariante_resultado.2.1 ⟨3/5⟩ "x" ["zq"] ["xyz"] (by decide),
    C1_invariante_resultado.2.2 ⟨3/5⟩ ["dieta"] []⟩

/-- C2 (counterexample): the key "diet" does NOT get the diet policy —
`buscar_variable` compares `variable_key.lower()` against the single literal
"dieta", so "diet" falls through to the standard policy and the results
differ (the standard result carries umbral_usado, the diet result does not). -/
theorem C2_contraejemplo :
    buscar_variable ⟨3/5⟩ "diet" ["frutas"] ["frutas"] ≠
      buscar_variable_dieta_especial ⟨3/5⟩ ["frutas"] ["frutas"] := by
  decide

/-- C2 (amended): the diet aggregation policy is applied exactly for keys
whose lower-cased form equals "dieta"; every other key — including "diet" —
gets the standard policy. -/
theorem C2_despacho_politicas :
    (∀ (e : SimilarityEngine) (variable_key : String) (sinonimos columnas : List String),
      (pyLower variable_key = "dieta" →
        buscar_variable e variable_key sinonimos columnas =
          buscar_variable_dieta_especial e sinonimos columnas) ∧
      (pyLower variable_key ≠ "dieta" →
        buscar_variable e variable_key sinonimos columnas =
          buscar_variable_simple e variable_key sinonimos columnas)) ∧
    (∀ (e : SimilarityEngine) (sinonimos columnas : List String),
      buscar_variable e "diet" sinonimos columnas =
        buscar_variable_simple e "diet" sinonimos columnas) := by
  constructor
  · intro e key sinonimos columnas
    constructor
    · intro h
      unfold buscar_variable
      rw [if_pos h]
    · intro h
      unfold buscar_variable
      rw [if_neg h]
  · intro e sinonimos columnas
    unfold buscar_variable
    rw [if_neg (by decide : ¬ pyLower "diet" = "dieta")]

/-- C2 witness: the dispatch at concrete keys ("Dieta" lowers to the reserved
name, "edad" does not). -/
theorem C2_despacho_politicas_witness :
    buscar_variable ⟨3/5⟩ "Dieta" ["frutas"] ["frutas"] =
        buscar_variable_dieta_especial ⟨3/5⟩ ["frutas"] ["frutas"] ∧
      buscar_variable ⟨3/5⟩ "edad" ["age"] ["Age"] =
        buscar_variable_simple ⟨3/5⟩ "edad" ["age"] ["Age"] :=
  ⟨(C2_despacho_politicas.1 ⟨3/5⟩ "Dieta" ["frutas"] ["frutas"]).1 (by decide),
    (C2_despacho_politicas.1 ⟨3/5⟩ "edad" ["age"] ["Age"]).2 (by decide)⟩

/-- C3 (counterexample): the scorer is not symmetric — the greedy
longest-block choice prefers the earliest block of the FIRST string, and on
"abxcda" / "cdyab" the two orders keep different block sets (4/11 vs 6/11,
matching difflib's behavior). -/
theorem C3_contraejemplo :
    calcular_similitud "abxcda" "cdyab" ≠ calcular_similitud "cdyab" "abxcda" := by
  decide

/-- C3 (amended): symmetry holds for pairs of strings that share no character
(both orders score 0, or 1 when both are empty) and trivially when the two
strings are equal; it does not hold for all pairs. -/
theorem C3_simetria_condicional :
    ∀ a b : String, ((∀ c ∈ a.data, c ∉ b.data) ∨ a = b) →
      calcular_similitud a b = calcular_similitud b a := by
  intro a b h
  rcases h with h | rfl
  · exact similitudListas_symm_disjoint a.data b.data h
  · rfl

/-- C3 witness: symmetry on a concrete disjoint pair. -/
theorem C3_simetria_condicional_witness :
    calcular_similitud "abc" "xyz" = calcular_similitud "xyz" "abc" :=
  C3_simetria_condicional "abc" "xyz" (Or.inl (by decide))

/-- C4 (counterexample): with non-empty column and synonym lists whose only
evaluated pair scores 0.0, the unique (hence first-seen maximal) triple names
column "!!!", yet the result reports columna = None and
sinonimo_match = None — the initial best score 0.0 is never displaced by a
non-strictly-greater score. -/
theorem C4_contraejemplo :
    paresEvaluados ["abc"] ["!!!"] = [("!!!", "abc", 0)] ∧
    (buscar_variable_simple ⟨3/5⟩ "v" ["abc"] ["!!!"]).columna = none ∧
    (buscar_variable_simple ⟨3/5⟩ "v" ["abc"] ["!!!"]).sinonimo_match = none := by
  decide

/-- C4 (amended): whenever the evaluated pair list splits as
`l1 ++ pm :: l2` with every earlier pair scoring strictly below `pm` and
every later pair scoring at most `pm` (i.e. `pm` is the first-seen maximal
triple), the maximal score is positive, and the winning column and synonym
are non-empty strings, `buscar_variable_simple` returns exactly that triple;
`encontrada` is equivalent to the best score reaching the threshold and
`confianza` is the best score rounded to 3 decimals. -/
theorem C4_mejor_triple :
    ∀ (e : SimilarityEngine) (key : String) (sinonimos columnas : List String)
      (l1 l2 : List (String × String × ℚ)) (pm : String × String × ℚ),
      paresEvaluados sinonimos columnas = l1 ++ pm :: l2 →
      (∀ q ∈ l1, q.2.2 < pm.2.2) →
      (∀ q ∈ l2, q.2.2 ≤ pm.2.2) →
      0 < pm.2.2 → pm.1 ≠ "" → pm.2.1 ≠ "" →
      (buscar_variable_simple e key sinonimos columnas).columna = some pm.1 ∧
        (buscar_variable_simple e key sinonimos columnas).sinonimo_match = some pm.2.1 ∧
        (buscar_variable_simple e key sinonimos columnas).confianza = pyRound pm.2.2 3 ∧
        ((buscar_variable_simple e key sinonimos columnas).encontrada = true ↔
          e.umbral_similitud ≤ pm.2.2) := by
  intro e key sinonimos columnas l1 l2 pm hsplit h1 h2 hpos hc hs
  have hm : mejorBusqueda sinonimos columnas = ⟨some pm.1, pm.2.2, some pm.2.1⟩ := by
    unfold mejorBusqueda
    rw [hsplit]
    exact foldl_pasoPar_first_argmax pm l1 l2 ⟨none, 0, none⟩ h1 h2 hpos
  rw [buscar_variable_simple_eq, hm]
  dsimp only
  refine ⟨?_, ?_, rfl, ?_⟩
  · show (if pm.1 = "" then (none : Option String) else some pm.1) = some pm.1
    rw [if_neg hc]
  · show (if pm.2.1 = "" then (none : Option String) else some pm.2.1) = some pm.2.1
    rw [if_neg hs]
  · exact ⟨of_decide_eq_true, decide_eq_true⟩

/-- C4 witness: the amended statement on a singleton exact match. -/
theorem C4_mejor_triple_witness :
    (buscar_variable_simple ⟨3/5⟩ "glucosa" ["glucosa"] ["glucosa"]).columna = some "glucosa" ∧
      (buscar_variable_simple ⟨3/5⟩ "glucosa" ["glucosa"] ["glucosa"]).sinonimo_match =
        some "glucosa" ∧
      (buscar_variable_simple ⟨3/5⟩ "glucosa" ["glucosa"] ["glucosa"]).confianza =
        pyRound ("glucosa", "glucosa", (1 : ℚ)).2.2 3 ∧
      ((buscar_variable_simple ⟨3/5⟩ "glucosa" ["glucosa"] ["glucosa"]).encontrada = true ↔
        (⟨3/5⟩ : SimilarityEngine).umbral_similitud ≤ ("glucosa", "glucosa", (1 : ℚ)).2.2) :=
  C4_mejor_triple ⟨3/5⟩ "glucosa" ["glucosa"] ["glucosa"] [] [] ("glucosa", "glucosa", 1)
    (by decide) (by decide) (by decide) (by decide) (by decide) (by decide)

/-- C5 (counterexample): threshold 0.0 lies in [0,1] — the setter accepts
it — yet the empty-column search reports encontrada = true (0.0 ≥ 0.0), so
"encontrada = false for every threshold in [0,1]" fails at 0.0. -/
theorem C5_contraejemplo :
    ajustar_umbral ⟨3/5⟩ 0 = (⟨0⟩, true) ∧
    (buscar_variable_simple ⟨0⟩ "glucosa" ["glucosa"] []).encontrada = true := by
  decide

/-- C5 (amended): for every strictly positive threshold at most 1, the
standard policy on an empty column list returns encontrada = false,
confianza = 0.0 and columna = None. -/
theorem C5_columnas_vacias :
    ∀ (e : SimilarityEngine) (key : String) (sinonimos : List String),
      0 < e.umbral_similitud → e.umbral_similitud ≤ 1 →
      (buscar_variable_simple e key sinonimos []).encontrada = false ∧
        (buscar_variable_simple e key sinonimos []).confianza = 0 ∧
        (buscar_variable_simple e key sinonimos []).columna = none := by
  intro e key sinonimos hpos _
  have hm : mejorBusqueda sinonimos [] = ⟨none, 0, none⟩ := rfl
  rw [buscar_variable_simple_eq, hm]
  dsimp only
  exact ⟨decide_eq_false (not_le.mpr hpos), pyRound_zero 3, rfl⟩

/-- C5 witness: the amended statement at the default threshold. -/
theorem C5_columnas_vacias_witness :
    (buscar_variable_simple ⟨3/5⟩ "edad" ["age"] []).encontrada = false ∧
      (buscar_variable_simple ⟨3/5⟩ "edad" ["age"] []).confianza = 0 ∧
      (buscar_variable_simple ⟨3/5⟩ "edad" ["age"] []).columna = none :=
  C5_columnas_vacias ⟨3/5⟩ "edad" ["age"] (by decide) (by decide)

/-- C6: threshold monotonicity — if a variable is found at threshold T, it is
found at every lower threshold with the same key, synonyms and columns, for
both the standard and the diet policy (via `buscar_variable`). -/
theorem C6_monotonia_umbral :
    ∀ (variable_key : String) (sinonimos columnas : List String) (T Tp : ℚ),
      Tp < T →
      (buscar_variable ⟨T⟩ variable_key sinonimos columnas).encontrada = true →
      (buscar_variable ⟨Tp⟩ variable_key sinonimos columnas).encontrada = true := by
  intro key sinonimos columnas T Tp hlt henc
  unfold buscar_variable at henc ⊢
  by_cases hd : pyLower key = "dieta"
  · rw [if_pos hd] at henc ⊢
    rw [dieta_encontrada_iff] at henc ⊢
    dsimp only at henc ⊢
    exact lt_of_lt_of_le henc (paresAceptados_mono sinonimos columnas (le_of_lt hlt))
  · rw [if_neg hd] at henc ⊢
    rw [buscar_variable_simple_eq] at henc ⊢
    dsimp only at henc ⊢
    have hT : T ≤ (mejorBusqueda sinonimos columnas).score := of_decide_eq_true henc
    exact decide_eq_true (by linarith)

/-- C6 witness: monotonicity from threshold 3/5 down to 1/2 on an exact
match. -/
theorem C6_monotonia_umbral_witness :
    (buscar_variable ⟨1/2⟩ "glucosa" ["glucosa"] ["glucosa"]).encontrada = true :=
  C6_monotonia_umbral "glucosa" ["glucosa"] ["glucosa"] (3/5) (1/2)
    (by decide) (by decide)

/-- C7: the diet buckets partition the accepted pairs — the reported detalles
are exactly the accepted pairs filtered by the fruit test (tested first on
the candidate's normalized text), by not-fruit-and-vegetable, and by
neither, and the three bucket sizes sum to the number of accepted
(candidate, synonym) pairs. -/
theorem C7_particion_cubetas :
    ∀ (e : SimilarityEngine) (sinonimos columnas : List String),
      (buscar_variable_dieta_especial e sinonimos columnas).detalles =
        some ⟨triplesClasificados e.umbral_similitud sinonimos columnas esFrutaTxt,
          triplesClasificados e.umbral_similitud sinonimos columnas
            (fun nc => !esFrutaTxt nc && esVegetalTxt nc),
          triplesClasificados e.umbral_similitud sinonimos columnas
            (fun nc => !esFrutaTxt nc && !esVegetalTxt nc)⟩ ∧
      (triplesClasificados e.umbral_similitud sinonimos columnas esFrutaTxt).length +
        (triplesClasificados e.umbral_similitud sinonimos columnas
          (fun nc => !esFrutaTxt nc && esVegetalTxt nc)).length +
        (triplesClasificados e.umbral_similitud sinonimos columnas
          (fun nc => !esFrutaTxt nc && !esVegetalTxt nc)).length =
        paresAceptados e.umbral_similitud sinonimos columnas := by
  intro e sinonimos columnas
  have hfilt := cubetasDieta_filtros e sinonimos columnas
  constructor
  · rw [dieta_detalles, hfilt]
  · have hcount := cubetasDieta_count e sinonimos columnas
    rw [hfilt] at hcount
    simpa using hcount

/-- C8: `obtener_estadisticas_busqueda` computes total = number of results,
found = number with encontrada = true, missing = keys of the not-found
results, coverage = round(found/total × 100, 1) (0 when total = 0) and mean
confidence = round(mean of confianza over found results, 3) (0 when none
found); in particular 8 variables with 5 found yield coverage 62.5. -/
theorem C8_estadisticas :
    (∀ (e : SimilarityEngine) (resultados : List ResultadoEtiquetado),
      obtener_estadisticas_busqueda e resultados =
        { total_variables := resultados.length
          variables_encontradas := resultados.countP (fun r => r.resultado.encontrada)
          variables_faltantes :=
            (resultados.filter (fun r => !r.resultado.encontrada)).map (fun r => r.clave)
          cobertura_porcentaje :=
            if resultados.length = 0 then 0
            else pyRound (((resultados.countP (fun r => r.resultado.encontrada) : ℕ) : ℚ) /
              ((resultados.length : ℕ) : ℚ) * 100) 1
          confianza_promedio :=
            if resultados.countP (fun r => r.resultado.encontrada) = 0 then 0
            else pyRound
              (((resultados.filter (fun r => r.resultado.encontrada)).map
                  (fun r => r.resultado.confianza)).sum /
                ((resultados.countP (fun r => r.resultado.encontrada) : ℕ) : ℚ)) 3
          umbral_usado := e.umbral_similitud }) ∧
    (obtener_estadisticas_busqueda ⟨3/5⟩ ejemploOcho).cobertura_porcentaje = 125/2 := by
  refine ⟨estadisticas_formulas, ?_⟩
  decide

/-- C9: the similarity scorer is bounded — every score lies in [0,1] — and
every non-empty string scores exactly 1.0 against itself. -/
theorem C9_cotas_similitud :
    (∀ a b : String, 0 ≤ calcular_similitud a b ∧ calcular_similitud a b ≤ 1) ∧
    (∀ a : String, a ≠ "" → calcular_similitud a a = 1) :=
  ⟨fun a b => ⟨calcular_similitud_nonneg a b, calcular_similitud_le_one a b⟩,
    fun a ha => calcular_similitud_self a ha⟩

/-- C9 witness: the bounds and the self-score at concrete strings. -/
theorem C9_cotas_similitud_witness :
    (0 ≤ calcular_similitud "a" "b" ∧ calcular_similitud "a" "b" ≤ 1) ∧
      calcular_similitud "glucosa" "glucosa" = 1 :=
  ⟨C9_cotas_similitud.1 "a" "b", C9_cotas_similitud.2 "glucosa" (by decide)⟩

/-- C10: when every evaluated pair scores 0.0 and candidate columns exist,
the standard policy still reports columna = None and sinonimo_match = None
(no strict improvement over the initial 0.0 ever happens), and with
threshold 0.0 the result is encontrada = true with columna = None. -/
theorem C10_puntajes_cero :
    ∀ (e : SimilarityEngine) (key : String) (sinonimos columnas : List String),
      columnas ≠ [] →
      (∀ p ∈ paresEvaluados sinonimos columnas, p.2.2 = 0) →
      (buscar_variable_simple e key sinonimos columnas).columna = none ∧
        (buscar_variable_simple e key sinonimos columnas).sinonimo_match = none ∧
        (e.umbral_similitud = 0 →
          (buscar_variable_simple e key sinonimos columnas).encontrada = true) := by
  intro e key sinonimos columnas _ hz
  have hm : mejorBusqueda sinonimos columnas = ⟨none, 0, none⟩ := by
    unfold mejorBusqueda
    exact foldl_pasoPar_fixed _ _ (fun p hp => le_of_eq (hz p hp))
  rw [buscar_variable_simple_eq, hm]
  dsimp only
  refine ⟨rfl, rfl, ?_⟩
  intro h0
  rw [h0]
  exact decide_eq_true (le_refl 0)

/-- C10 witness: column "!!!" normalizes to the empty string, the single
pair scores 0.0, and with threshold 0.0 the search "finds" the variable with
no column. -/
theorem C10_puntajes_cero_witness :
    (buscar_variable_simple ⟨0⟩ "variable1" ["abc"] ["!!!"]).columna = none ∧
      (buscar_variable_simple ⟨0⟩ "variable1" ["abc"] ["!!!"]).sinonimo_match = none ∧
      ((⟨0⟩ : SimilarityEngine).umbral_similitud = 0 →
        (buscar_variable_simple ⟨0⟩ "variable1" ["abc"] ["!!!"]).encontrada = true) :=
  C10_puntajes_cero ⟨0⟩ "variable1" ["abc"] ["!!!"] (by decide) (by decide)

end AppDiabetes
